import Mathlib

/-!
Shallow embedding of `helper-scripts/confluence_pdf_downloader.py`
(class `ConfluenceDownloader`).

The remote HTTP world is modelled by explicit response values handed to each
function: an HTTP call either raises a transport exception or yields a
response value.  The local filesystem is an association list from filename to
file data, threaded through `download_page` and `download_all_pages`.
Observable side effects (which endpoints were hit, which writes were
attempted) are recorded in an action trace so that "skips all work" /
"performs no write" style properties can be stated.
-/

set_option autoImplicit false

namespace ConfluenceDownloader

/-- Outcome of one HTTP call: either a transport-level exception was raised
(`exn`, caught by the Python `except` clauses) or a response came back. -/
inductive HttpResult (α : Type) where
  | exn : HttpResult α
  | ok : α → HttpResult α
  deriving DecidableEq, Repr

/-- Response of one of the two native PDF export endpoints: HTTP status code,
declared `content-type` header (empty string when the header is absent,
matching `response.headers.get('content-type', '')`), and raw body bytes. -/
structure ExportResponse where
  status : Nat
  contentType : String
  content : List Nat
  deriving DecidableEq, Repr

/-- Response of the content-retrieval endpoint
`/wiki/rest/api/content/{page_id}?expand=body.export_view,...`: HTTP status
code and the nested `body.export_view.value` field when present
(`none` models an absent nested field, in which case the Python chain
`data.get('body', {}).get('export_view', {}).get('value', '')` yields `''`). -/
structure ContentResponse where
  status : Nat
  exportViewValue : Option String
  deriving DecidableEq, Repr

/-- A page descriptor as returned by the listing endpoint: the two fields the
downloader reads (`page['id']`, `page['title']`). -/
structure Page where
  id : String
  title : String
  deriving DecidableEq, Repr

/-- Data stored in one output file: either PDF bytes (written in `'wb'` mode)
or HTML text (written in `'w'` mode). -/
inductive FileData where
  | pdfFile : List Nat → FileData
  | htmlFile : String → FileData
  deriving DecidableEq, Repr

/-- The output directory, as an association list from filename to contents. -/
abbrev FileSystem := List (String × FileData)

/-- `output_path.exists()`. -/
def fsExists (fs : FileSystem) (name : String) : Bool :=
  fs.any fun e => e.1 == name

/-- `open(path, mode) ... f.write(data)`: create or overwrite the file. -/
def fsWrite (fs : FileSystem) (name : String) (d : FileData) : FileSystem :=
  (name, d) :: fs.filter fun e => e.1 != name

/-- Observable actions of one `download_page` call: hitting export endpoint A
(`pdfpageexport.action`), export endpoint B (`exportword`), the
content-retrieval endpoint, running the HTML-to-PDF renderer, attempting a
file write. -/
inductive Action where
  | fetchA : Action
  | fetchB : Action
  | fetchContent : Action
  | renderAct : Action
  | writeAct : String → Action
  deriving DecidableEq, Repr

/-- The environment one `download_page` call runs in: what each remote
endpoint would answer for this page, what the WeasyPrint renderer would do
with a given HTML document (`none` = ImportError or render/write exception,
`some bytes` = a PDF file with those bytes is produced), and whether each of
the two plain file writes would succeed or raise. -/
structure PageEnv where
  respA : HttpResult ExportResponse
  respB : HttpResult ExportResponse
  respContent : HttpResult ContentResponse
  render : String → Option (List Nat)
  pdfWriteOk : Bool
  htmlWriteOk : Bool

/-! ### `sanitize_filename` -/

/-- `invalid_chars = '<>:"/\\|?*'` (line 277). -/
def invalid_chars : List Char := ['<', '>', ':', '"', '/', '\\', '|', '?', '*']

/-- One step of the loop body `filename = filename.replace(char, '_')`. -/
def replaceChar (s : List Char) (c : Char) : List Char :=
  s.map fun x => if x = c then '_' else x

/-- Python `str.strip()`: drop leading and trailing whitespace. -/
def pyStrip (s : List Char) : List Char :=
  ((s.dropWhile Char.isWhitespace).reverse.dropWhile Char.isWhitespace).reverse

/-- `sanitize_filename` (lines 266-284): replace each invalid character by an
underscore in turn, then `filename.strip()[:200]`. -/
def sanitize_filename (filename : String) : String :=
  let replaced := invalid_chars.foldl replaceChar filename.data
  String.mk ((pyStrip replaced).take 200)

/-- `pdf_filename = f"{safe_title}_{page_id}.pdf"` (line 303). -/
def pdf_filename_of (page : Page) : String :=
  sanitize_filename page.title ++ "_" ++ page.id ++ ".pdf"

/-- `html_filename = f"{safe_title}_{page_id}.html"` (line 340). -/
def html_filename_of (page : Page) : String :=
  sanitize_filename page.title ++ "_" ++ page.id ++ ".html"

/-! ### `get_page_content_as_pdf` (lines 124-159) -/

/-- Python `s.startswith(pre)`: `pre` is a prefix of `s`, as a check on the
character lists. -/
def startswith (s pre : String) : Bool :=
  pre.data.isPrefixOf s.data

/-- Acceptance test for a native export response (lines 140 and 154):
`response.status_code == 200 and
response.headers.get('content-type', '').startswith('application/pdf')`. -/
def acceptPdf (r : ExportResponse) : Bool :=
  r.status == 200 && startswith r.contentType "application/pdf"

/-- One export attempt: a raised transport exception or an unaccepted
response both fall through (`None`); an accepted response yields the raw
body bytes `response.content`. -/
def tryExport (x : HttpResult ExportResponse) : Option (List Nat) :=
  match x with
  | .exn => none
  | .ok r => if acceptPdf r then some r.content else none

/-- `get_page_content_as_pdf`: try export endpoint A
(`/wiki/spaces/{space}/pdfpageexport.action`), and only if it yielded
nothing, endpoint B (`/wiki/exportword`); return the accepted bytes or
`None`.  Also returns the list of endpoints actually hit. -/
def get_page_content_as_pdf (respA respB : HttpResult ExportResponse) :
    Option (List Nat) × List Action :=
  match tryExport respA with
  | some c => (some c, [Action.fetchA])
  | none =>
    match tryExport respB with
    | some c => (some c, [Action.fetchA, Action.fetchB])
    | none => (none, [Action.fetchA, Action.fetchB])

/-- Python truthiness of the `pdf_content` value at line 317
(`if pdf_content:`): `None` and the empty byte string are falsy. -/
def pdfTruthy (x : Option (List Nat)) : Bool :=
  match x with
  | none => false
  | some bs => !bs.isEmpty

/-! ### `get_page_html_content` (lines 161-186) -/

/-- `get_page_html_content`: on a transport exception or a
`raise_for_status()` failure (status ≥ 400) return `None`; otherwise return
`data.get('body', {}).get('export_view', {}).get('value', '')`. -/
def get_page_html_content (resp : HttpResult ContentResponse) : Option String :=
  match resp with
  | .exn => none
  | .ok r => if 400 ≤ r.status then none else some (r.exportViewValue.getD "")

/-! ### `html_to_pdf` (lines 188-264) -/

/-- The fixed styled document the renderer receives (lines 200-254): the
f-string template with `html_content` spliced into the `table-wrapper` div.
Double braces of the f-string render as single braces, written `\x7b`/`\x7d`
here. -/
def styled_html (html_content : String) : String :=
  "\n            <html>"
  ++ "\n            <head>"
  ++ "\n                <meta charset=\"UTF-8\">"
  ++ "\n                <style>"
  ++ "\n                    body \x7b font-family: Arial, sans-serif; line-height: 1.6; \x7d"
  ++ "\n                    .page-title \x7b font-size: 24px; font-weight: bold; margin-bottom: 20px; \x7d"
  ++ "\n                    .content \x7b max-width: 100%; \x7d"
  ++ "\n                    img \x7b max-width: 100%; height: auto; \x7d"
  ++ "\n                    /* Force table to fit page using scale if too wide */"
  ++ "\n                    .table-wrapper \x7b"
  ++ "\n                        width: 100%;"
  ++ "\n                        overflow-x: auto;"
  ++ "\n                        margin-bottom: 1em;"
  ++ "\n                        /* PDF hack: scale down wide tables */"
  ++ "\n                        display: block;"
  ++ "\n                    \x7d"
  ++ "\n                    table \x7b"
  ++ "\n                        border-collapse: collapse;"
  ++ "\n                        width: 100%;"
  ++ "\n                        font-size: 8px;"
  ++ "\n                        table-layout: fixed;"
  ++ "\n                        min-width: 600px;"
  ++ "\n                        max-width: 100vw;"
  ++ "\n                        overflow-x: auto;"
  ++ "\n                        display: block;"
  ++ "\n                        /* If table is too wide, scale it down */"
  ++ "\n                        transform: scale(0.7);"
  ++ "\n                        transform-origin: left top;"
  ++ "\n                    \x7d"
  ++ "\n                    th, td \x7b"
  ++ "\n                        border: 1px solid #ddd;"
  ++ "\n                        padding: 2px 4px;"
  ++ "\n                        text-align: left;"
  ++ "\n                        word-break: break-all;"
  ++ "\n                        white-space: pre-line;"
  ++ "\n                        max-width: 100px;"
  ++ "\n                        overflow: hidden;"
  ++ "\n                        text-overflow: ellipsis;"
  ++ "\n                    \x7d"
  ++ "\n                    th \x7b"
  ++ "\n                        background-color: #f2f2f2;"
  ++ "\n                        font-size: 8px;"
  ++ "\n                        /* Uncomment to rotate header text for extreme cases */"
  ++ "\n                        /* writing-mode: vertical-rl; transform: rotate(180deg); */"
  ++ "\n                    \x7d"
  ++ "\n                </style>"
  ++ "\n            </head>"
  ++ "\n            <body>"
  ++ "\n                <div class=\"content\">"
  ++ "\n                    <div class=\"table-wrapper\">" ++ html_content ++ "</div>"
  ++ "\n                </div>"
  ++ "\n            </body>"
  ++ "\n            </html>"
  ++ "\n            "

/-- `html_to_pdf`: wrap the fragment in the styled template and hand it to
WeasyPrint (the `render` oracle).  `some bytes` means `write_pdf` produced a
PDF file with those bytes and the function returned `True`; `none` covers the
`ImportError` and exception paths that return `False`. -/
def html_to_pdf (render : String → Option (List Nat)) (html_content : String) :
    Option (List Nat) :=
  render (styled_html html_content)

/-! ### `download_page` (lines 286-352) -/

/-- Lines 329-352 of `download_page`: the HTML fallback after no (truthy)
native PDF was obtained.  `tr` is the trace accumulated so far. -/
def html_fallback (env : PageEnv) (fs : FileSystem) (page : Page)
    (tr : List Action) : Bool × FileSystem × List Action :=
  let tr := tr ++ [Action.fetchContent]
  match get_page_html_content env.respContent with
  | some html_content =>
    if html_content.isEmpty then (false, fs, tr)
    else
      let html_with_title :=
        "<div class=\"page-title\">" ++ page.title ++ "</div>" ++ html_content
      match html_to_pdf env.render html_with_title with
      | some out =>
        (true, fsWrite fs (pdf_filename_of page) (FileData.pdfFile out),
          tr ++ [Action.renderAct, Action.writeAct (pdf_filename_of page)])
      | none =>
        let html_filename := html_filename_of page
        if env.htmlWriteOk then
          (true,
            fsWrite fs html_filename
              (FileData.htmlFile ("<h1>" ++ page.title ++ "</h1>" ++ html_content)),
            tr ++ [Action.renderAct, Action.writeAct html_filename])
        else (false, fs, tr ++ [Action.renderAct, Action.writeAct html_filename])
  | none => (false, fs, tr)

/-- `download_page`: skip when the computed PDF path already exists; else run
the fetch cascade, write the native PDF bytes when truthy, and otherwise run
the HTML fallback.  Returns the Python boolean result, the updated
filesystem, and the action trace. -/
def download_page (env : PageEnv) (fs : FileSystem) (page : Page) :
    Bool × FileSystem × List Action :=
  let pdf_filename := pdf_filename_of page
  if fsExists fs pdf_filename then (true, fs, [])
  else
    match get_page_content_as_pdf env.respA env.respB with
    | (pdf_content, tr) =>
      if pdfTruthy pdf_content then
        if env.pdfWriteOk then
          (true, fsWrite fs pdf_filename (FileData.pdfFile (pdf_content.getD [])),
            tr ++ [Action.writeAct pdf_filename])
        else (false, fs, tr ++ [Action.writeAct pdf_filename])
      else html_fallback env fs page tr

/-! ### `get_space_pages` (lines 76-122) -/

/-- The `while True` loop of `get_space_pages`.  `server start` is the
listing endpoint's answer to the request with offset `start` (a raised
transport exception or the `results` array).  Returns the accumulated pages
and the list of `start` offsets actually requested.  `fuel` bounds the number
of iterations (the Python loop runs as long as full pages keep coming). -/
def get_space_pages_loop (server : Nat → HttpResult (List Page)) (limit : Nat) :
    Nat → Nat → List Page → List Page × List Nat
  | 0, _, pages => (pages, [])
  | fuel + 1, start, pages =>
    match server start with
    | .exn => (pages, [start])
    | .ok current_pages =>
      let pages := pages ++ current_pages
      if current_pages.length < limit then (pages, [start])
      else
        let rest := get_space_pages_loop server limit fuel (start + limit) pages
        (rest.1, start :: rest.2)

/-- `get_space_pages(limit)`: run the loop from `start = 0` with an empty
accumulator. -/
def get_space_pages (server : Nat → HttpResult (List Page)) (limit fuel : Nat) :
    List Page × List Nat :=
  get_space_pages_loop server limit fuel 0 []

/-! ### `download_all_pages` (lines 354-377) -/

/-- Outcome of one `download_all_pages` run: the final summary log
(`successful_downloads`, `failed_downloads`) when it was emitted, whether the
early-return branch logged `"No pages found or error fetching pages"`, and
the resulting filesystem. -/
structure RunResult where
  summary : Option (Nat × Nat)
  noPagesError : Bool
  fs : FileSystem
  deriving DecidableEq, Repr

/-- The per-page loop of `download_all_pages` (lines 366-372): thread the
filesystem through `download_page` and tally successes and failures. -/
def process_pages (envFor : Page → PageEnv) :
    List Page → FileSystem → Nat × Nat × FileSystem × List Action
  | [], fs => (0, 0, fs, [])
  | p :: rest, fs =>
    match download_page (envFor p) fs p with
    | (ok, fs', tr) =>
      match process_pages envFor rest fs' with
      | (s, f, fs'', trs) =>
        if ok then (s + 1, f, fs'', tr ++ trs) else (s, f + 1, fs'', tr ++ trs)

/-- `download_all_pages`: list the pages (with the default `limit=100`); on
an empty listing log the error and return with no summary; otherwise process
every page and emit the summary counts. -/
def download_all_pages (server : Nat → HttpResult (List Page)) (fuel : Nat)
    (envFor : Page → PageEnv) (fs : FileSystem) : RunResult × List Action :=
  let pages := (get_space_pages server 100 fuel).1
  if pages.isEmpty then (⟨none, true, fs⟩, [])
  else
    match process_pages envFor pages fs with
    | (s, f, fs', tr) => (⟨some (s, f), false, fs'⟩, tr)

/-! ### Concrete instances used to exercise the definitions -/

/-- A one-page space: page id `"1"`, title `"T"`. -/
def cPage : Page := ⟨"1", "T"⟩

/-- A filesystem already holding the PDF file of `cPage`. -/
def cFs : FileSystem := [("T_1.pdf", FileData.pdfFile [3])]

/-- Export endpoint A answers with a valid PDF; everything else fails. -/
def cEnvPdf : PageEnv :=
  ⟨.ok ⟨200, "application/pdf", [1, 2]⟩, .exn, .exn, fun _ => none, true, true⟩

/-- Same as `cEnvPdf` but the local PDF write raises. -/
def cEnvPdfWriteFail : PageEnv :=
  ⟨.ok ⟨200, "application/pdf", [1, 2]⟩, .exn, .exn, fun _ => none, false, true⟩

/-- Both export endpoints raise; content retrieval yields HTML `"x"`; the
renderer is unavailable; plain writes succeed. -/
def cEnvHtml : PageEnv :=
  ⟨.exn, .exn, .ok ⟨200, some "x"⟩, fun _ => none, true, true⟩

/-- No fetch raises: endpoint A answers 200 with non-PDF content, endpoint B
answers HTTP 500, content retrieval answers 200 but without the nested
`body.export_view.value` field. -/
def cEnvNoField : PageEnv :=
  ⟨.ok ⟨200, "text/html", [9]⟩, .ok ⟨500, "", []⟩, .ok ⟨200, none⟩,
    fun _ => none, true, true⟩

/-- The fallback-ordering scenario: endpoint A answers non-PDF content,
endpoint B answers HTTP 500, content retrieval succeeds with HTML `"x"`, and
the renderer produces the PDF bytes `[7]`. -/
def cEnvScenario : PageEnv :=
  ⟨.ok ⟨200, "text/html", [9]⟩, .ok ⟨500, "", []⟩, .ok ⟨200, some "x"⟩,
    fun _ => some [7], true, true⟩

/-- A listing server answering every request with the single page `cPage`
(a short page for every `limit > 1`). -/
def cServer : Nat → HttpResult (List Page) := fun _ => .ok [cPage]

/-- A listing server for a space with zero pages. -/
def cServerEmpty : Nat → HttpResult (List Page) := fun _ => .ok []

/-- Pages for the pagination scenarios. -/
def cPageA : Page := ⟨"11", "A"⟩

/-- Second pagination page. -/
def cPageB : Page := ⟨"12", "B"⟩

/-- Third pagination page. -/
def cPageC : Page := ⟨"13", "C"⟩

/-- Batches for the pagination scenario with `limit = 2`: one full page then
one short page. -/
def c2Batch : Nat → List Page := fun i => if i = 0 then [cPageA, cPageB] else [cPageC]

/-- Listing server serving `c2Batch` at offsets `0` and `2`. -/
def c2Server : Nat → HttpResult (List Page) := fun s =>
  if s = 0 then .ok [cPageA, cPageB] else if s = 2 then .ok [cPageC] else .exn

/-- Listing server returning one full page (`limit = 2`) and then raising a
transport error on the second request. -/
def c8Server : Nat → HttpResult (List Page) := fun s =>
  if s = 0 then .ok [cPageA, cPageB] else .exn

/-! ## Helper lemmas -/

/-- The sequential per-character replaces act pointwise on the string. -/
lemma foldl_replaceChar (cs : List Char) (s : List Char) :
    cs.foldl replaceChar s =
      s.map fun c => cs.foldl (fun x k => if x = k then '_' else x) c := by
  induction cs generalizing s with
  | nil => simp
  | cons c cs ih =>
    simp only [List.foldl_cons, replaceChar, ih, List.map_map]
    rfl

/-- A character outside the replacement set is left unchanged. -/
lemma foldl_step_not_mem (cs : List Char) (c : Char) (h : c ∉ cs) :
    cs.foldl (fun x k => if x = k then '_' else x) c = c := by
  induction cs with
  | nil => rfl
  | cons k cs ih =>
    simp only [List.foldl_cons]
    rw [if_neg (by simp_all), ih (by simp_all)]

/-- A character in the replacement set becomes an underscore (the underscore
itself is not in the set, so later replaces leave it alone). -/
lemma foldl_step_mem : ∀ (cs : List Char) (c : Char), c ∈ cs →
    ('_' : Char) ∉ cs →
    cs.foldl (fun x k => if x = k then '_' else x) c = '_'
  | [], c, hc, _ => absurd hc (List.not_mem_nil c)
  | k :: cs, c, hc, hu => by
    simp only [List.foldl_cons]
    by_cases h : c = k
    · rw [if_pos h]
      exact foldl_step_not_mem cs '_' (by simp_all)
    · rw [if_neg h]
      exact foldl_step_mem cs c (by simp_all) (by simp_all)

/-- The nine sequential replaces of `sanitize_filename` act on one character
as a single membership test. -/
lemma replOne_invalid (c : Char) :
    invalid_chars.foldl (fun x k => if x = k then '_' else x) c =
      if c ∈ invalid_chars then '_' else c := by
  by_cases hc : c ∈ invalid_chars
  · rw [if_pos hc]
    exact foldl_step_mem invalid_chars c hc (by decide)
  · rw [if_neg hc]
    exact foldl_step_not_mem invalid_chars c hc

/-- `sanitize_filename` is: pointwise replacement of unsafe characters, then
strip, then truncation to 200 characters. -/
lemma sanitize_filename_eq (title : String) :
    (sanitize_filename title).data =
      (pyStrip (title.data.map fun c =>
        if c ∈ invalid_chars then '_' else c)).take 200 := by
  unfold sanitize_filename
  simp [foldl_replaceChar, replOne_invalid]

/-- The sanitized title never exceeds 200 characters. -/
lemma sanitize_filename_length (title : String) :
    (sanitize_filename title).length ≤ 200 := by
  unfold sanitize_filename String.length
  simp [List.length_take]

/-- When the computed PDF path exists, `download_page` does nothing. -/
lemma download_page_exists_skip (env : PageEnv) (fs : FileSystem) (page : Page)
    (h : fsExists fs (pdf_filename_of page) = true) :
    download_page env fs page = (true, fs, []) := by
  simp [download_page, h]

/-- The fetch cascade hits endpoint A alone, or endpoints A then B. -/
lemma get_page_content_as_pdf_trace (a b : HttpResult ExportResponse) :
    (get_page_content_as_pdf a b).2 = [Action.fetchA] ∨
      (get_page_content_as_pdf a b).2 = [Action.fetchA, Action.fetchB] := by
  unfold get_page_content_as_pdf
  cases h : tryExport a with
  | some c => simp
  | none =>
    cases h2 : tryExport b with
    | some c => simp
    | none => simp

/-- When native PDF bytes were obtained but the write raises,
`download_page` fails right after the write attempt. -/
lemma download_page_pdf_write_fail (env : PageEnv) (fs : FileSystem)
    (page : Page)
    (hskip : fsExists fs (pdf_filename_of page) = false)
    (hpdf : pdfTruthy (get_page_content_as_pdf env.respA env.respB).1 = true)
    (hw : env.pdfWriteOk = false) :
    download_page env fs page =
      (false, fs, (get_page_content_as_pdf env.respA env.respB).2 ++
        [Action.writeAct (pdf_filename_of page)]) := by
  simp [download_page, hskip, hpdf, hw]

/-- Endpoint B is tried only if endpoint A yielded nothing: when A's attempt
yields bytes, the cascade returns them at once and B is never hit. -/
lemma get_page_content_as_pdf_accepted (a b : HttpResult ExportResponse)
    (c : List Nat) (h : tryExport a = some c) :
    get_page_content_as_pdf a b = (some c, [Action.fetchA]) := by
  simp [get_page_content_as_pdf, h]

/-- When the native PDF bytes are truthy and the write succeeds,
`download_page` writes them and stops after the write. -/
lemma download_page_pdf_write_ok (env : PageEnv) (fs : FileSystem)
    (page : Page)
    (hskip : fsExists fs (pdf_filename_of page) = false)
    (hpdf : pdfTruthy (get_page_content_as_pdf env.respA env.respB).1 = true)
    (hw : env.pdfWriteOk = true) :
    download_page env fs page =
      (true,
        fsWrite fs (pdf_filename_of page)
          (FileData.pdfFile
            ((get_page_content_as_pdf env.respA env.respB).1.getD [])),
        (get_page_content_as_pdf env.respA env.respB).2 ++
          [Action.writeAct (pdf_filename_of page)]) := by
  simp [download_page, hskip, hpdf, hw]

/-- Content retrieval, rendering and the HTML fallback are reached only if
the native cascade yielded nothing truthy: a truthy cascade result keeps
`fetchContent` and `renderAct` out of the trace, whether the write succeeds
or raises. -/
lemma download_page_truthy_no_content_fetch (env : PageEnv) (fs : FileSystem)
    (page : Page)
    (hskip : fsExists fs (pdf_filename_of page) = false)
    (hpdf : pdfTruthy (get_page_content_as_pdf env.respA env.respB).1 = true) :
    Action.fetchContent ∉ (download_page env fs page).2.2 ∧
      Action.renderAct ∉ (download_page env fs page).2.2 := by
  have htr := get_page_content_as_pdf_trace env.respA env.respB
  cases hw : env.pdfWriteOk with
  | false =>
    rw [download_page_pdf_write_fail env fs page hskip hpdf hw]
    rcases htr with h2 | h2 <;> simp [h2]
  | true =>
    rw [download_page_pdf_write_ok env fs page hskip hpdf hw]
    rcases htr with h2 | h2 <;> simp [h2]

/-- A native export attempt yields bytes only for a 200 response whose
content type starts with `application/pdf`. -/
lemma tryExport_accept (x : HttpResult ExportResponse)
    (h : (tryExport x).isSome = true) :
    ∃ r, x = .ok r ∧ r.status = 200 ∧
      startswith r.contentType "application/pdf" = true := by
  cases x with
  | exn => simp [tryExport] at h
  | ok r =>
    refine ⟨r, rfl, ?_⟩
    by_cases ha : acceptPdf r = true
    · have := ha
      unfold acceptPdf at this
      simp only [Bool.and_eq_true, beq_iff_eq] at this
      exact this
    · simp [tryExport, ha] at h

/-- The fallback-ordering scenario: endpoint A answers non-PDF content,
endpoint B answers HTTP 500, content retrieval and the renderer succeed, so
the page's file is written from the rendered HTML. -/
lemma download_page_rendered (env : PageEnv) (fs : FileSystem) (page : Page)
    (rA rB : ExportResponse) (cr : ContentResponse) (out : List Nat)
    (hA : env.respA = .ok rA)
    (hActype : startswith rA.contentType "application/pdf" = false)
    (hB : env.respB = .ok rB) (hBstatus : rB.status = 500)
    (hC : env.respContent = .ok cr) (hCstatus : cr.status < 400)
    (hHtml : (cr.exportViewValue.getD "").isEmpty = false)
    (hR : env.render (styled_html ("<div class=\"page-title\">" ++ page.title ++
        "</div>" ++ cr.exportViewValue.getD "")) = some out)
    (hskip : fsExists fs (pdf_filename_of page) = false) :
    download_page env fs page =
      (true, fsWrite fs (pdf_filename_of page) (FileData.pdfFile out),
        [Action.fetchA, Action.fetchB, Action.fetchContent, Action.renderAct,
          Action.writeAct (pdf_filename_of page)]) := by
  have h1 : tryExport env.respA = none := by
    simp [tryExport, hA, acceptPdf, hActype]
  have h2 : tryExport env.respB = none := by
    simp [tryExport, hB, acceptPdf, hBstatus]
  have h3 : get_page_html_content env.respContent =
      some (cr.exportViewValue.getD "") := by
    simp [get_page_html_content, hC]
    omega
  simp [download_page, hskip, get_page_content_as_pdf, h1, h2, pdfTruthy,
    html_fallback, h3, hHtml, html_to_pdf, hR]

/-- When no truthy native PDF was obtained, the HTML arrived non-empty, the
renderer failed and the plain write succeeds, `download_page` writes the raw
HTML with the title heading and succeeds. -/
lemma download_page_html_fallback_write (env : PageEnv) (fs : FileSystem)
    (page : Page) (h : String)
    (hskip : fsExists fs (pdf_filename_of page) = false)
    (hpdf : pdfTruthy (get_page_content_as_pdf env.respA env.respB).1 = false)
    (hH : get_page_html_content env.respContent = some h)
    (hne : h.isEmpty = false)
    (hR : html_to_pdf env.render
        ("<div class=\"page-title\">" ++ page.title ++ "</div>" ++ h) = none)
    (hw : env.htmlWriteOk = true) :
    download_page env fs page =
      (true,
        fsWrite fs (html_filename_of page)
          (FileData.htmlFile ("<h1>" ++ page.title ++ "</h1>" ++ h)),
        (get_page_content_as_pdf env.respA env.respB).2 ++
          [Action.fetchContent, Action.renderAct,
            Action.writeAct (html_filename_of page)]) := by
  simp [download_page, hskip, hpdf, html_fallback, hH, hne, hR, hw]

/-- Exact characterization of a failed `download_page` call (when not
skipped): either the sole attempted write raised, or no usable content was
obtained. -/
lemma download_page_failure_iff (env : PageEnv) (fs : FileSystem) (page : Page)
    (hskip : fsExists fs (pdf_filename_of page) = false) :
    (download_page env fs page).1 = false ↔
      (pdfTruthy (get_page_content_as_pdf env.respA env.respB).1 = true ∧
        env.pdfWriteOk = false) ∨
      (pdfTruthy (get_page_content_as_pdf env.respA env.respB).1 = false ∧
        (get_page_html_content env.respContent = none ∨
          ∃ h, get_page_html_content env.respContent = some h ∧
            h.isEmpty = true)) ∨
      (pdfTruthy (get_page_content_as_pdf env.respA env.respB).1 = false ∧
        ∃ h, get_page_html_content env.respContent = some h ∧
          h.isEmpty = false ∧
          html_to_pdf env.render
            ("<div class=\"page-title\">" ++ page.title ++ "</div>" ++ h) =
              none ∧
          env.htmlWriteOk = false) := by
  cases hpdf : pdfTruthy (get_page_content_as_pdf env.respA env.respB).1 with
  | true =>
    cases hw : env.pdfWriteOk with
    | true => simp [download_page, hskip, hpdf, hw]
    | false => simp [download_page, hskip, hpdf, hw]
  | false =>
    cases hH : get_page_html_content env.respContent with
    | none => simp [download_page, hskip, hpdf, html_fallback, hH]
    | some h =>
      cases hne : h.isEmpty with
      | true => simp [download_page, hskip, hpdf, html_fallback, hH, hne]
      | false =>
        cases hR : html_to_pdf env.render
            ("<div class=\"page-title\">" ++ page.title ++ "</div>" ++ h) with
        | some out =>
          simp [download_page, hskip, hpdf, html_fallback, hH, hne, hR]
        | none =>
          cases hw : env.htmlWriteOk with
          | true =>
            simp [download_page, hskip, hpdf, html_fallback, hH, hne, hR, hw]
          | false =>
            simp [download_page, hskip, hpdf, html_fallback, hH, hne, hR, hw]

/-- Loop invariant for the pagination loop ending on a short page: starting
at offset `j·limit` with full batches up to `N` and a short batch at `N`, the
loop appends batches `j..N` and requests offsets `j·limit, …, N·limit`. -/
lemma get_space_pages_loop_full (server : Nat → HttpResult (List Page))
    (limit : Nat) (batch : Nat → List Page) (N : Nat)
    (hfull : ∀ i, i < N → server (i * limit) = .ok (batch i))
    (hlen : ∀ i, i < N → (batch i).length = limit)
    (hshort : server (N * limit) = .ok (batch N))
    (hshortlen : (batch N).length < limit) :
    ∀ (fuel j : Nat) (acc : List Page), j ≤ N → N - j < fuel →
      get_space_pages_loop server limit fuel (j * limit) acc =
        (acc ++ ((List.range' j (N - j + 1)).map batch).flatten,
          (List.range' j (N - j + 1)).map fun i => i * limit) := by
  intro fuel
  induction fuel with
  | zero => intro j acc _ h2; omega
  | succ fuel ih =>
    intro j acc hj hfuel
    rcases Nat.eq_or_lt_of_le hj with hje | hjlt
    · subst hje
      simp [get_space_pages_loop, hshort, hshortlen]
    · have hj' : j + 1 ≤ N := hjlt
      have hfull' := hfull j hjlt
      have hlen' := hlen j hjlt
      have hrange : List.range' j (N - j + 1) =
          j :: List.range' (j + 1) (N - (j + 1) + 1) := by
        have : N - j + 1 = (N - (j + 1) + 1) + 1 := by omega
        rw [this, List.range'_succ]
      rw [get_space_pages_loop, hfull']
      simp only [hlen', Nat.lt_irrefl, if_false]
      have harith : j * limit + limit = (j + 1) * limit := by ring
      rw [harith, ih (j + 1) (acc ++ batch j) hj' (by omega)]
      simp [hrange]

/-- Loop invariant for the pagination loop ending on a transport exception:
the loop keeps the batches accumulated before the failing request. -/
lemma get_space_pages_loop_exn (server : Nat → HttpResult (List Page))
    (limit : Nat) (batch : Nat → List Page) (N : Nat)
    (hfull : ∀ i, i < N → server (i * limit) = .ok (batch i))
    (hlen : ∀ i, i < N → (batch i).length = limit)
    (hexn : server (N * limit) = .exn) :
    ∀ (fuel j : Nat) (acc : List Page), j ≤ N → N - j < fuel →
      get_space_pages_loop server limit fuel (j * limit) acc =
        (acc ++ ((List.range' j (N - j)).map batch).flatten,
          ((List.range' j (N - j)).map fun i => i * limit) ++ [N * limit]) := by
  intro fuel
  induction fuel with
  | zero => intro j acc _ h2; omega
  | succ fuel ih =>
    intro j acc hj hfuel
    rcases Nat.eq_or_lt_of_le hj with hje | hjlt
    · subst hje
      simp [get_space_pages_loop, hexn]
    · have hj' : j + 1 ≤ N := hjlt
      have hfull' := hfull j hjlt
      have hlen' := hlen j hjlt
      have hrange : List.range' j (N - j) =
          j :: List.range' (j + 1) (N - (j + 1)) := by
        have : N - j = (N - (j + 1)) + 1 := by omega
        rw [this, List.range'_succ]
      rw [get_space_pages_loop, hfull']
      simp only [hlen', Nat.lt_irrefl, if_false]
      have harith : j * limit + limit = (j + 1) * limit := by ring
      rw [harith, ih (j + 1) (acc ++ batch j) hj' (by omega)]
      simp [hrange]

/-- When every page's PDF file already exists, the per-page loop succeeds on
all of them, changes nothing and performs no action. -/
lemma process_pages_all_exist (envFor : Page → PageEnv) (ps : List Page)
    (fs : FileSystem)
    (h : ∀ p ∈ ps, fsExists fs (pdf_filename_of p) = true) :
    process_pages envFor ps fs = (ps.length, 0, fs, []) := by
  induction ps with
  | nil => rfl
  | cons p rest ih =>
    have hskip := download_page_exists_skip (envFor p) fs p (h p (by simp))
    have hrest := ih fun q hq => h q (by simp [hq])
    simp [process_pages, hskip, hrest]

/-! ## Claim theorems -/

/-- C1: the fetch cascade tries export endpoint A, then B, then HTML content
retrieval, each step only if the previous yielded nothing: a yielding
endpoint-A attempt keeps `fetchB` out of the trace, and a truthy cascade
result keeps `fetchContent` and `renderAct` out of it; a native export
response is accepted only when its status is 200 and its content type starts
with `application/pdf`; and when A returns non-PDF content, B returns HTTP
500 and content retrieval succeeds (with the renderer available), the page's
file is written from the rendered HTML and the page is not marked failed. -/
theorem fetch_cascade_order_and_acceptance :
    (∀ x : HttpResult ExportResponse, (tryExport x).isSome = true →
      ∃ r, x = .ok r ∧ r.status = 200 ∧
        startswith r.contentType "application/pdf" = true) ∧
    (∀ (a b : HttpResult ExportResponse) (c : List Nat),
      tryExport a = some c →
      get_page_content_as_pdf a b = (some c, [Action.fetchA])) ∧
    (∀ (env : PageEnv) (fs : FileSystem) (page : Page),
      fsExists fs (pdf_filename_of page) = false →
      pdfTruthy (get_page_content_as_pdf env.respA env.respB).1 = true →
      Action.fetchContent ∉ (download_page env fs page).2.2 ∧
        Action.renderAct ∉ (download_page env fs page).2.2) ∧
    (∀ (env : PageEnv) (fs : FileSystem) (page : Page)
      (rA rB : ExportResponse) (cr : ContentResponse) (out : List Nat),
      env.respA = .ok rA →
      startswith rA.contentType "application/pdf" = false →
      env.respB = .ok rB → rB.status = 500 →
      env.respContent = .ok cr → cr.status < 400 →
      (cr.exportViewValue.getD "").isEmpty = false →
      env.render (styled_html ("<div class=\"page-title\">" ++ page.title ++
        "</div>" ++ cr.exportViewValue.getD "")) = some out →
      fsExists fs (pdf_filename_of page) = false →
      download_page env fs page =
        (true, fsWrite fs (pdf_filename_of page) (FileData.pdfFile out),
          [Action.fetchA, Action.fetchB, Action.fetchContent,
            Action.renderAct, Action.writeAct (pdf_filename_of page)])) :=
  ⟨tryExport_accept, get_page_content_as_pdf_accepted,
    download_page_truthy_no_content_fetch, download_page_rendered⟩

/-- C1 witness: an accepted endpoint-A response leaves endpoint B untouched,
a truthy native PDF leaves content retrieval and rendering untouched, and
the fallback-ordering scenario at a concrete page ends in a rendered PDF. -/
theorem fetch_cascade_order_and_acceptance_witness :
    get_page_content_as_pdf (.ok ⟨200, "application/pdf", [1, 2]⟩) .exn =
      (some [1, 2], [Action.fetchA]) ∧
    (Action.fetchContent ∉ (download_page cEnvPdf [] cPage).2.2 ∧
      Action.renderAct ∉ (download_page cEnvPdf [] cPage).2.2) ∧
    download_page cEnvScenario [] cPage =
      (true, [("T_1.pdf", FileData.pdfFile [7])],
        [Action.fetchA, Action.fetchB, Action.fetchContent, Action.renderAct,
          Action.writeAct "T_1.pdf"]) := by
  refine ⟨?_, ?_, ?_⟩
  · exact fetch_cascade_order_and_acceptance.2.1
      (.ok ⟨200, "application/pdf", [1, 2]⟩) .exn [1, 2] (by decide)
  · exact fetch_cascade_order_and_acceptance.2.2.1 cEnvPdf [] cPage
      (by decide) (by decide)
  · have h := fetch_cascade_order_and_acceptance.2.2.2 cEnvScenario [] cPage
      ⟨200, "text/html", [9]⟩ ⟨500, "", []⟩ ⟨200, some "x"⟩ [7]
      rfl (by decide) rfl rfl rfl (by decide) (by decide) rfl rfl
    exact h.trans (by decide)

/-- C2: with N full pages of exactly `limit` results followed by one short
page, `get_space_pages` returns the concatenation of all N+1 batches in
order, issues exactly N+1 requests at offsets 0, limit, 2·limit, …, and
stops after the first short page. -/
theorem get_space_pages_pagination (server : Nat → HttpResult (List Page))
    (limit N fuel : Nat) (batch : Nat → List Page)
    (hfuel : N < fuel)
    (hfull : ∀ i, i < N → server (i * limit) = .ok (batch i))
    (hlen : ∀ i, i < N → (batch i).length = limit)
    (hshort : server (N * limit) = .ok (batch N))
    (hshortlen : (batch N).length < limit) :
    get_space_pages server limit fuel =
      (((List.range (N + 1)).map batch).flatten,
        (List.range (N + 1)).map fun i => i * limit) := by
  have h := get_space_pages_loop_full server limit batch N hfull hlen hshort
    hshortlen fuel 0 [] (Nat.zero_le N) (by omega)
  simp only [Nat.zero_mul, Nat.sub_zero, List.nil_append] at h
  rw [get_space_pages, h, List.range_eq_range']

/-- C2 witness: one full page of 2 results then one short page. -/
theorem get_space_pages_pagination_witness :
    get_space_pages c2Server 2 5 = ([cPageA, cPageB, cPageC], [0, 2]) := by
  have h := get_space_pages_pagination c2Server 2 1 5 c2Batch (by omega)
    (by decide) (by decide) (by decide) (by decide)
  exact h.trans (by decide)

/-- C3 counterexample: for a space with zero pages the listing is empty, but
`download_all_pages` logs the `"No pages found or error fetching pages"`
error and returns early, so no run summary (in particular not one with zero
successes and zero failures) is reported. -/
theorem empty_space_no_summary_counterexample :
    (get_space_pages cServerEmpty 100 5).1 = [] ∧
    (download_all_pages cServerEmpty 5 (fun _ => cEnvHtml) []).1.summary =
      none ∧
    (download_all_pages cServerEmpty 5 (fun _ => cEnvHtml) []).1.noPagesError
      = true :=
  ⟨rfl, rfl, rfl⟩

/-- C3 amended: for a space with zero pages the listing returns an empty
sequence, and `download_all_pages` then logs the no-pages error and returns
early, emitting no run summary and touching no file. -/
theorem empty_space_early_return (server : Nat → HttpResult (List Page))
    (fuel : Nat) (envFor : Page → PageEnv) (fs : FileSystem)
    (h : (get_space_pages server 100 fuel).1 = []) :
    download_all_pages server fuel envFor fs = (⟨none, true, fs⟩, []) := by
  simp [download_all_pages, h]

/-- C3 witness: the empty-space server. -/
theorem empty_space_early_return_witness :
    download_all_pages cServerEmpty 5 (fun _ => cEnvHtml) [] =
      (⟨none, true, []⟩, []) :=
  empty_space_early_return cServerEmpty 5 (fun _ => cEnvHtml) [] rfl

/-- C4 counterexample: a page saved through the raw-HTML fallback gets an
`.html` file, but the skip check tests the `.pdf` path, so the second run
against the unchanged remote repeats the work and performs a new write
instead of skipping the page. -/
theorem second_run_writes_again_counterexample :
    Action.writeAct "T_1.html" ∈
      (download_all_pages cServer 5 (fun _ => cEnvHtml)
        (download_all_pages cServer 5 (fun _ => cEnvHtml) []).1.fs).2 := by
  decide

/-- C4 amended: when after the first run a file exists at every listed
page's computed PDF path, the second run against the unchanged remote skips
every page, performs zero writes (indeed no action at all), leaves the
filesystem unchanged, and reports every page as successful. -/
theorem second_run_skips_all (server : Nat → HttpResult (List Page))
    (fuel : Nat) (envFor : Page → PageEnv) (fs0 : FileSystem)
    (pages : List Page)
    (hpages : (get_space_pages server 100 fuel).1 = pages)
    (hne : pages ≠ [])
    (hpdf : ∀ p ∈ pages,
      fsExists (download_all_pages server fuel envFor fs0).1.fs
        (pdf_filename_of p) = true) :
    download_all_pages server fuel envFor
        (download_all_pages server fuel envFor fs0).1.fs =
      (⟨some (pages.length, 0), false,
        (download_all_pages server fuel envFor fs0).1.fs⟩, []) := by
  obtain ⟨fs1, hfs1⟩ :
      ∃ x, (download_all_pages server fuel envFor fs0).1.fs = x := ⟨_, rfl⟩
  rw [hfs1] at hpdf ⊢
  have hproc := process_pages_all_exist envFor pages fs1 hpdf
  have hne' : pages.isEmpty = false := by
    cases pages with
    | nil => exact absurd rfl hne
    | cons a l => rfl
  simp [download_all_pages, hpages, hne', hproc]

/-- C4 witness: a one-page space downloaded natively as PDF in the first
run; the second run skips it. -/
theorem second_run_skips_all_witness :
    download_all_pages cServer 5 (fun _ => cEnvPdf)
        (download_all_pages cServer 5 (fun _ => cEnvPdf) []).1.fs =
      (⟨some (1, 0), false,
        (download_all_pages cServer 5 (fun _ => cEnvPdf) []).1.fs⟩, []) := by
  have h := second_run_skips_all cServer 5 (fun _ => cEnvPdf) [] [cPage]
    (by decide) (by decide) (by decide)
  simpa using h

/-- C5: when the computed PDF path already exists, `download_page` performs
no fetch, render or write (empty action trace), leaves the filesystem
untouched — regardless of either file's content and of what the remote would
answer — and reports success. -/
theorem existing_pdf_skip (env : PageEnv) (fs : FileSystem) (page : Page)
    (h : fsExists fs (pdf_filename_of page) = true) :
    download_page env fs page = (true, fs, []) :=
  download_page_exists_skip env fs page h

/-- C5 witness: a concrete filesystem already holding the page's PDF. -/
theorem existing_pdf_skip_witness :
    fsExists cFs (pdf_filename_of cPage) = true ∧
    download_page cEnvHtml cFs cPage = (true, cFs, []) :=
  ⟨by decide, existing_pdf_skip cEnvHtml cFs cPage (by decide)⟩

/-- C6: the derived filename replaces every occurrence of each unsafe
character `<>:"/\|?*` with an underscore, strips surrounding whitespace,
truncates to 200 characters, and only then appends `_{page_id}` and the
extension. -/
theorem filename_sanitization (title page_id : String) :
    pdf_filename_of ⟨page_id, title⟩ =
      sanitize_filename title ++ "_" ++ page_id ++ ".pdf" ∧
    (sanitize_filename title).data =
      (pyStrip (title.data.map fun c =>
        if c ∈ invalid_chars then '_' else c)).take 200 ∧
    (sanitize_filename title).length ≤ 200 :=
  ⟨rfl, sanitize_filename_eq title, sanitize_filename_length title⟩

/-- C7: when HTML content was obtained but rendering fails, the raw HTML
prefixed with a title heading is written with the `.html` extension and the
page is reported successful; and a page is reported failed exactly when
either no usable content was obtained (no truthy PDF and the HTML missing or
empty) or the single attempted write raised. -/
theorem html_fallback_and_failure_characterization :
    (∀ (env : PageEnv) (fs : FileSystem) (page : Page) (h : String),
      fsExists fs (pdf_filename_of page) = false →
      pdfTruthy (get_page_content_as_pdf env.respA env.respB).1 = false →
      get_page_html_content env.respContent = some h →
      h.isEmpty = false →
      html_to_pdf env.render
        ("<div class=\"page-title\">" ++ page.title ++ "</div>" ++ h) = none →
      env.htmlWriteOk = true →
      download_page env fs page =
        (true,
          fsWrite fs (html_filename_of page)
            (FileData.htmlFile ("<h1>" ++ page.title ++ "</h1>" ++ h)),
          (get_page_content_as_pdf env.respA env.respB).2 ++
            [Action.fetchContent, Action.renderAct,
              Action.writeAct (html_filename_of page)])) ∧
    (∀ (env : PageEnv) (fs : FileSystem) (page : Page),
      fsExists fs (pdf_filename_of page) = false →
      ((download_page env fs page).1 = false ↔
        (pdfTruthy (get_page_content_as_pdf env.respA env.respB).1 = true ∧
          env.pdfWriteOk = false) ∨
        (pdfTruthy (get_page_content_as_pdf env.respA env.respB).1 = false ∧
          (get_page_html_content env.respContent = none ∨
            ∃ h, get_page_html_content env.respContent = some h ∧
              h.isEmpty = true)) ∨
        (pdfTruthy (get_page_content_as_pdf env.respA env.respB).1 = false ∧
          ∃ h, get_page_html_content env.respContent = some h ∧
            h.isEmpty = false ∧
            html_to_pdf env.render
              ("<div class=\"page-title\">" ++ page.title ++ "</div>" ++ h) =
                none ∧
            env.htmlWriteOk = false))) :=
  ⟨download_page_html_fallback_write, download_page_failure_iff⟩

/-- C7 witness: a concrete page whose render fails and whose raw HTML is
saved as `.html` with the page reported successful. -/
theorem html_fallback_and_failure_characterization_witness :
    download_page cEnvHtml [] cPage =
      (true, [("T_1.html", FileData.htmlFile "<h1>T</h1>x")],
        [Action.fetchA, Action.fetchB, Action.fetchContent, Action.renderAct,
          Action.writeAct "T_1.html"]) := by
  have h := html_fallback_and_failure_characterization.1 cEnvHtml [] cPage "x"
    (by decide) (by decide) (by decide) (by decide) rfl rfl
  exact h.trans (by decide)

/-- C8: when a transport-level failure occurs during page listing (after N
full batches), `get_space_pages` returns normally with exactly the page
descriptors accumulated from the responses received before the failure. -/
theorem listing_partial_on_transport_failure
    (server : Nat → HttpResult (List Page)) (limit N fuel : Nat)
    (batch : Nat → List Page)
    (hfuel : N < fuel)
    (hfull : ∀ i, i < N → server (i * limit) = .ok (batch i))
    (hlen : ∀ i, i < N → (batch i).length = limit)
    (hexn : server (N * limit) = .exn) :
    (get_space_pages server limit fuel).1 =
      ((List.range N).map batch).flatten := by
  have h := get_space_pages_loop_exn server limit batch N hfull hlen hexn
    fuel 0 [] (Nat.zero_le N) (by omega)
  simp only [Nat.zero_mul, Nat.sub_zero, List.nil_append] at h
  rw [get_space_pages, h, List.range_eq_range']

/-- C8 witness: one full batch of 2 results, then a transport failure. -/
theorem listing_partial_on_transport_failure_witness :
    (get_space_pages c8Server 2 5).1 = [cPageA, cPageB] := by
  have h := listing_partial_on_transport_failure c8Server 2 1 5 c2Batch
    (by omega) (by decide) (by decide) (by decide)
  exact h.trans (by decide)

/-- C9: for a page whose content-retrieval response succeeds (no fetch step
raised, endpoint A answered non-PDF content, endpoint B answered HTTP 500)
but lacks the nested `body.export_view.value` field, the extracted HTML is
the empty string and `download_page` writes no file, performs no write
attempt, and reports the page as failed. -/
theorem missing_export_view_fails :
    get_page_html_content cEnvNoField.respContent = some "" ∧
    download_page cEnvNoField [] cPage =
      (false, [], [Action.fetchA, Action.fetchB, Action.fetchContent]) :=
  ⟨rfl, by decide⟩

/-- C10: when native PDF bytes were obtained but writing them raises, the
page is reported failed immediately: the filesystem is unchanged and neither
the content-retrieval endpoint nor the renderer is ever invoked. -/
theorem pdf_write_failure_immediate (env : PageEnv) (fs : FileSystem)
    (page : Page)
    (hskip : fsExists fs (pdf_filename_of page) = false)
    (hpdf : pdfTruthy (get_page_content_as_pdf env.respA env.respB).1 = true)
    (hw : env.pdfWriteOk = false) :
    download_page env fs page =
      (false, fs, (get_page_content_as_pdf env.respA env.respB).2 ++
        [Action.writeAct (pdf_filename_of page)]) ∧
    Action.fetchContent ∉ (download_page env fs page).2.2 ∧
    Action.renderAct ∉ (download_page env fs page).2.2 := by
  have h := download_page_pdf_write_fail env fs page hskip hpdf hw
  refine ⟨h, ?_, ?_⟩ <;>
  · rw [h]
    rcases get_page_content_as_pdf_trace env.respA env.respB with h2 | h2 <;>
      simp [h2]

/-- C10 witness: a concrete page whose native PDF write raises. -/
theorem pdf_write_failure_immediate_witness :
    download_page cEnvPdfWriteFail [] cPage =
      (false, [], [Action.fetchA, Action.writeAct "T_1.pdf"]) ∧
    Action.fetchContent ∉ (download_page cEnvPdfWriteFail [] cPage).2.2 := by
  have h := pdf_write_failure_immediate cEnvPdfWriteFail [] cPage
    (by decide) (by decide) rfl
  exact ⟨h.1.trans (by decide), h.2.1⟩

end ConfluenceDownloader
